import Mathlib

/-!
Shallow embedding of `src/car_sim.py`, a Nagel–Schreckenberg-style traffic
cellular automaton: cars on circular multi-lane roads, a per-tick update rule
without lane changes (`Car.update`, `Lane.update`, `Road.update`) and one with
lane changes (`Car.update_wLC`, `Lane.update_wLC`, `Road.update_wLC`), a
nearest-neighbour search on a circular track (`ahead_behind`), and random
crash injection (`Lane.crash_car`).

Python integers are embedded as `Int` (Python's `%` on a positive modulus
agrees with `Int.emod`).  The global random generator is embedded as an
explicit `Oracle` of decision streams together with a draw counter that is
threaded through every operation; each call site of `random.random()` /
`random.randint` consumes one index.  Python runtime errors (`AttributeError`
on a `None` dereference, `ValueError` from `randint(0, -1)`) are embedded as
`Option` failure (`none`).
-/

namespace CarSim

/-- A single car: position and velocity (Python ints, so they can in
principle go negative) and the crash-recovery countdown. -/
structure Car where
  posn : Int
  vel : Int
  crash_timer : Nat
deriving DecidableEq

/-- The random draws a tick makes, as explicit decision streams indexed by a
running draw counter: `slow k` is the outcome of `random.random() < 0.5` in
the randomization step, `crash k` the outcome of `random.random() < .01` in
the crash-injection step, `laneIdx k` / `carIdx k` the values drawn by
`random.randint` for the target lane and car (used modulo the population
size, which ranges over exactly the values `randint` can return). -/
structure Oracle where
  slow : Nat → Bool
  crash : Nat → Bool
  laneIdx : Nat → Nat
  carIdx : Nat → Nat

/-- `Car.update(self, p_ahead, road_len)` (car_sim.py lines 81-98): crash
handling, acceleration, wraparound adjustment of `p_ahead`, braking,
random slowdown (one draw, made only when the velocity is positive), move. -/
def Car.update (c : Car) (p_ahead road_len : Int) (o : Oracle) (k : Nat) :
    Car × Nat :=
  if c.crash_timer ≠ 0 then
    ({ c with vel := 0, crash_timer := c.crash_timer - 1 }, k)
  else
    let v1 : Int := if c.vel < 5 then c.vel + 1 else c.vel
    let pa : Int := if p_ahead < c.posn then p_ahead + road_len else p_ahead
    let v2 : Int := if pa - c.posn < v1 then pa - c.posn - 1 else v1
    if v2 > 0 then
      let v3 : Int := if o.slow k then v2 - 1 else v2
      ({ c with vel := v3, posn := (c.posn + v3) % road_len }, k + 1)
    else
      ({ c with vel := v2, posn := (c.posn + v2) % road_len }, k)

/-- A lane: track length, the `num_cars` counter field, and the car list. -/
structure Lane where
  length : Int
  num_cars : Nat
  cars : List Car
deriving DecidableEq

/-- Placeholder lane used as the default of out-of-range list reads; the
Python code never indexes out of range, so it is never actually read. -/
def Lane.dummy : Lane := ⟨0, 0, []⟩

/-- `Lane.get_posns` (lines 23-27). -/
def Lane.get_posns (l : Lane) : List Int := l.cars.map (fun c => c.posn)

/-- `Lane.add_car` (lines 57-62): append, then re-sort by position.  Python's
`sorted` is a stable ascending sort, which is what `List.insertionSort` with
the non-strict key comparison computes. -/
def Lane.add_car (l : Lane) (car : Car) : Lane :=
  { l with cars := List.insertionSort (fun a b => a.posn ≤ b.posn) (l.cars ++ [car]) }

/-- `Lane.crash_car` (lines 64-70): pick a random car and set its
`crash_timer` to 30.  On an empty lane `random.randint(0, -1)` raises
`ValueError`, embedded as `none`; `r % num_cars` ranges over exactly the
indices `randint(0, num_cars - 1)` can produce. -/
def Lane.crash_car (l : Lane) (r : Nat) : Option Lane :=
  if l.num_cars = 0 then none
  else
    let ind := r % l.num_cars
    let crashed : Car := { l.cars.getD ind ⟨0, 0, 0⟩ with crash_timer := 30 }
    some { l with cars := l.cars.set ind crashed }

/-- First scan of `ahead_behind` (lines 137-148): nearest car circularly
behind position `p`, tracking the running minimum distance. -/
def behindScan (p road_len : Int) : List Car → Option Car × Int → Option Car × Int
  | [], acc => acc
  | c :: cs, (bc, minB) =>
      let d := p - c.posn
      if 0 < d ∧ d < minB then behindScan p road_len cs (some c, d)
      else
        let d2 := d + road_len
        if 0 < d2 ∧ d2 < minB then behindScan p road_len cs (some c, d2)
        else behindScan p road_len cs (bc, minB)

/-- Second scan of `ahead_behind` (lines 149-160): nearest car circularly
ahead of position `p`. -/
def aheadScan (p road_len : Int) : List Car → Option Car × Int → Option Car × Int
  | [], acc => acc
  | c :: cs, (ac, minA) =>
      let d := c.posn - p
      if 0 < d ∧ d < minA then aheadScan p road_len cs (some c, d)
      else
        let d2 := d + road_len
        if 0 < d2 ∧ d2 < minA then aheadScan p road_len cs (some c, d2)
        else aheadScan p road_len cs (ac, minA)

/-- `ahead_behind(myCar, myLane, road_len)` (lines 132-161): the nearest cars
behind and ahead of `myCar` in `myLane`, `none` when no car qualifies. -/
def ahead_behind (myCar : Car) (myLane : Lane) (road_len : Int) :
    Option Car × Option Car :=
  ((behindScan myCar.posn road_len myLane.cars (none, road_len)).1,
   (aheadScan myCar.posn road_len myLane.cars (none, road_len)).1)

/-- The safety test on the nearest-behind car of an adjacent lane
(lines 114 and 118): `(behind.posn + behind.vel + 1) % road_len < self.posn`,
a plain integer comparison of the reduced advance against the position. -/
def candidateCheck (p b v road_len : Int) : Bool :=
  decide ((b + v + 1) % road_len < p)

/-- Modelled from the spec: the side-candidate criterion as §4.4 words it —
the nearest-behind car, "after its own one-tick max advance
(`behind.position + behind.velocity + 1`, circularly), would not reach this
car's current position", i.e. the circular distance from the behind car to
the subject exceeds `behind.velocity + 1`.  Used only to compare against
`candidateCheck`, the criterion the source actually computes. -/
def candidateSpec (p b v road_len : Int) : Bool :=
  decide (v + 1 < (p - b) % road_len)

/-- Candidate space of one adjacent side (lines 108-119): `some (-1)` for an
absent lane or an unsafe gap behind, the circular forward gap when the side
qualifies, and `none` for the `AttributeError` raised when the neighbour
search returns no behind (or no ahead) car to dereference. -/
def sideSpace (c : Car) (adj : Option Lane) (road_len : Int) : Option Int :=
  match adj with
  | none => some (-1)
  | some lane =>
      match ahead_behind c lane road_len with
      | (none, _) => none
      | (some bc, aopt) =>
          if candidateCheck c.posn bc.posn bc.vel road_len then
            match aopt with
            | none => none
            | some ac => some ((ac.posn - c.posn) % road_len)
          else some (-1)

/-- Which of the three lanes the selection step picks. -/
inductive LCChoice where
  | stay
  | right
  | left
deriving DecidableEq

/-- The `if mSpace == max([rSpace, lSpace, mSpace]) ... elif rSpace == ...
elif lSpace == ...` chain of lines 120-130.  The final fallback is
unreachable, since the maximum of the three equals one of them. -/
def spaceSelect (mSpace rSpace lSpace : Int) : LCChoice :=
  if mSpace = max (max rSpace lSpace) mSpace then .stay
  else if rSpace = max (max rSpace lSpace) mSpace then .right
  else if lSpace = max (max rSpace lSpace) mSpace then .left
  else .stay

/-- `Car.update_wLC(self, p_ahead, road_len, adjs)` (lines 100-130).  Returns
the updated car, the moved flag, the (possibly extended) adjacent lanes and
the draw counter, or `none` for the unguarded `l_behind.posn` /
`r_behind.posn` dereference of a `None` neighbour.  On a lane change the car
itself does both `adjs[_].add_car(self)` and `adjs[_].num_cars += 1`. -/
def Car.update_wLC (c : Car) (p_ahead road_len : Int) (adjL adjR : Option Lane)
    (o : Oracle) (k : Nat) :
    Option (Car × Bool × Option Lane × Option Lane × Nat) :=
  if c.crash_timer ≠ 0 then
    some ({ c with vel := 0, crash_timer := c.crash_timer - 1 }, false, adjL, adjR, k)
  else
    match sideSpace c adjL road_len, sideSpace c adjR road_len with
    | some lSpace, some rSpace =>
        let mSpace := (p_ahead - c.posn) % road_len
        match spaceSelect mSpace rSpace lSpace with
        | .stay =>
            let ck := c.update p_ahead road_len o k
            some (ck.1, false, adjL, adjR, ck.2)
        | .right =>
            match adjR with
            | some lane =>
                some (c, true, adjL,
                  some { lane.add_car c with num_cars := (lane.add_car c).num_cars + 1 }, k)
            | none => none
        | .left =>
            match adjL with
            | some lane =>
                some (c, true,
                  some { lane.add_car c with num_cars := (lane.add_car c).num_cars + 1 },
                  adjR, k)
            | none => none
    | _, _ => none

/-- The per-car loop of `Lane.update` (lines 39-41): each car reads the
pre-tick position snapshot at index `(i + 1) % num_cars`. -/
def laneUpdateGo (curr : List Int) (n : Nat) (len : Int) (o : Oracle) :
    List Car → Nat → Nat → List Car × Nat
  | [], _, k => ([], k)
  | c :: cs, i, k =>
      let ck := c.update (curr.getD ((i + 1) % n) 0) len o k
      let rest := laneUpdateGo curr n len o cs (i + 1) ck.2
      (ck.1 :: rest.1, rest.2)

/-- `Lane.update` (lines 35-41). -/
def Lane.update (l : Lane) (o : Oracle) (k : Nat) : Lane × Nat :=
  let r := laneUpdateGo l.get_posns l.num_cars l.length o l.cars 0 k
  ({ l with cars := r.1 }, r.2)

/-- The per-car loop of `Lane.update_wLC` (lines 47-55), threading the
adjacent lanes (Python mutates them through references).  It returns the
cars kept in this lane and how many departed; keeping exactly the cars whose
flag is false equals Python's recording of the flagged indices in `toPop`
and popping them in descending order. -/
def laneCarsWLC (curr : List Int) (n : Nat) (len : Int) (o : Oracle) :
    List Car → Nat → Option Lane → Option Lane → Nat →
    Option (List Car × Nat × Option Lane × Option Lane × Nat)
  | [], _, aL, aR, k => some ([], 0, aL, aR, k)
  | c :: cs, i, aL, aR, k =>
      match c.update_wLC (curr.getD ((i + 1) % max n 1) 0) len aL aR o k with
      | none => none
      | some (c1, mv, aL1, aR1, k1) =>
          match laneCarsWLC curr n len o cs (i + 1) aL1 aR1 k1 with
          | none => none
          | some (kept, m, aL2, aR2, k2) =>
              some ((if mv then kept else c1 :: kept), (if mv then m + 1 else m),
                aL2, aR2, k2)

/-- `Lane.update_wLC(self, adjs)` (lines 43-55): run the loop on the
position snapshot, then drop the departed cars and decrement `num_cars`
once per departure. -/
def Lane.update_wLC (l : Lane) (adjL adjR : Option Lane) (o : Oracle) (k : Nat) :
    Option (Lane × Option Lane × Option Lane × Nat) :=
  match laneCarsWLC l.get_posns l.num_cars l.length o l.cars 0 adjL adjR k with
  | none => none
  | some (kept, m, aL, aR, k1) =>
      some ({ l with cars := kept, num_cars := l.num_cars - m }, aL, aR, k1)

/-- A road: number of lanes, track length, and the lanes. -/
structure Road where
  num_lanes : Nat
  length : Int
  lanes : List Lane
deriving DecidableEq

/-- The crash-injection step run after each lane's update (lines 181-185 and
199-204): one draw decides whether the event fires; if it does, a uniformly
random lane index is drawn, and — only in the guarded (`update_wLC`) variant —
the injection is skipped when that lane is empty.  The unguarded variant
calls `crash_car` unconditionally, so an empty target propagates the
`ValueError` as `none`. -/
def roadCrashStep (guarded : Bool) (nL : Nat) (o : Oracle)
    (lanes : List Lane) (k : Nat) : Option (List Lane × Nat) :=
  if o.crash k then
    let ind := o.laneIdx (k + 1) % nL
    let tgt := lanes.getD ind Lane.dummy
    if guarded ∧ ¬ tgt.num_cars > 0 then some (lanes, k + 2)
    else
      match tgt.crash_car (o.carIdx (k + 2)) with
      | none => none
      | some l1 => some (lanes.set ind l1, k + 3)
  else some (lanes, k + 1)

/-- Store an updated adjacent lane back into the road's lane list; `none`
means the side had no adjacent lane, so there is nothing to store. -/
def writeBack (lanes : List Lane) (i : Nat) : Option Lane → List Lane
  | none => lanes
  | some a => lanes.set i a

/-- The lane loop of `Road.update` (lines 178-185). -/
def roadLanesTick (nL : Nat) (o : Oracle) :
    List Nat → List Lane → Nat → Option (List Lane × Nat)
  | [], lanes, k => some (lanes, k)
  | i :: is, lanes, k =>
      let lk := (lanes.getD i Lane.dummy).update o k
      match roadCrashStep false nL o (lanes.set i lk.1) lk.2 with
      | none => none
      | some (lanes2, k2) => roadLanesTick nL o is lanes2 k2

/-- `Road.update` (lines 173-185): each lane updates in order, followed by
the unguarded crash-injection step. -/
def Road.update (r : Road) (o : Oracle) (k : Nat) : Option (Road × Nat) :=
  match roadLanesTick r.num_lanes o (List.range r.lanes.length) r.lanes k with
  | none => none
  | some (lanes, k1) => some ({ r with lanes := lanes }, k1)

/-- The lane loop of `Road.update_wLC` (lines 192-204): lane `i` gets
`adjs = [lanes[i-1] if i != 0, lanes[i+1] if i != num_lanes - 1]`, its update
mutates those lanes (written back here), and the guarded crash-injection
step follows. -/
def roadLanesTickWLC (nL : Nat) (o : Oracle) :
    List Nat → List Lane → Nat → Option (List Lane × Nat)
  | [], lanes, k => some (lanes, k)
  | i :: is, lanes, k =>
      let adjL := if i ≠ 0 then some (lanes.getD (i - 1) Lane.dummy) else none
      let adjR := if i ≠ nL - 1 then some (lanes.getD (i + 1) Lane.dummy) else none
      match (lanes.getD i Lane.dummy).update_wLC adjL adjR o k with
      | none => none
      | some (l1, aL, aR, k1) =>
          let lanes1 := writeBack (writeBack (lanes.set i l1) (i - 1) aL) (i + 1) aR
          match roadCrashStep true nL o lanes1 k1 with
          | none => none
          | some (lanes2, k2) => roadLanesTickWLC nL o is lanes2 k2

/-- `Road.update_wLC` (lines 187-204). -/
def Road.update_wLC (r : Road) (o : Oracle) (k : Nat) : Option (Road × Nat) :=
  match roadLanesTickWLC r.num_lanes o (List.range r.lanes.length) r.lanes k with
  | none => none
  | some (lanes, k1) => some ({ r with lanes := lanes }, k1)

/-- `n` consecutive calls of `Road.update_wLC`. -/
def Road.update_wLC_iter : Nat → Road → Oracle → Nat → Option (Road × Nat)
  | 0, r, _, k => some (r, k)
  | n + 1, r, o, k =>
      match r.update_wLC o k with
      | none => none
      | some (r1, k1) => Road.update_wLC_iter n r1 o k1

/-- Total number of cars in a list of lanes. -/
def totalLanes (lanes : List Lane) : Nat :=
  (lanes.map (fun l => l.cars.length)).sum

/-- Total number of cars on a road, summed over all lanes. -/
def totalCars (r : Road) : Nat := totalLanes r.lanes

/-- Number of cars behind an `Option Lane`. -/
def optLen : Option Lane → Nat
  | none => 0
  | some l => l.cars.length

/-- The all-quiet oracle: no random slowdown ever fires and no crash event
fires.  Used for concrete runs. -/
def oFalse : Oracle := ⟨fun _ => false, fun _ => false, fun _ => 0, fun _ => 0⟩

/-- Oracle whose crash event always fires and always targets lane 0.  Used
for concrete runs of the crash-injection step. -/
def oCrash : Oracle := ⟨fun _ => false, fun _ => true, fun _ => 0, fun _ => 0⟩

/-- The cars held behind an `Option Lane`, as a multiset (the population,
forgetting order). -/
def laneBag : Option Lane → Multiset Car
  | none => 0
  | some l => (l.cars : Multiset Car)

/-! ## Helper lemmas -/

theorem add_car_length (l : Lane) (c : Car) :
    (l.add_car c).cars.length = l.cars.length + 1 := by
  simp [Lane.add_car, List.length_insertionSort]

theorem add_car_bag (l : Lane) (c : Car) :
    ((l.add_car c).cars : Multiset Car) = c ::ₘ (l.cars : Multiset Car) := by
  have h := List.perm_insertionSort (fun a b : Car => a.posn ≤ b.posn) (l.cars ++ [c])
  have h2 : ((l.add_car c).cars : Multiset Car) = ((l.cars ++ [c] : List Car) : Multiset Car) :=
    Multiset.coe_eq_coe.mpr h
  simp only [h2, ← Multiset.coe_add]
  simp only [← Multiset.cons_coe, ← Multiset.singleton_add]
  exact add_comm _ _

/-! ## Claim theorems -/

/-- Claim C1 (code bug): the no-overlap invariant is violated by the code.
On a lane of length 10 whose cars sit at pairwise-distinct positions 0
(velocity 2) and 3 (crashed, `crash_timer = 1` — a state reachable through
crash injection and 29 decaying ticks), one completed `Road.update` tick
with no random slowdowns moves the first car exactly onto cell 3 while the
crashed car stays at 3: the braking rule only fires when the gap is
strictly smaller than the velocity, so a car whose gap equals its velocity
advances onto the snapshot cell of a leader that does not move. -/
theorem c1_overlap_bug :
    ((⟨1, 10, [⟨10, 2, [⟨0, 2, 0⟩, ⟨3, 1, 1⟩]⟩]⟩ : Road).lanes.map Lane.get_posns
        = [[0, 3]]) ∧
    (Road.update ⟨1, 10, [⟨10, 2, [⟨0, 2, 0⟩, ⟨3, 1, 1⟩]⟩]⟩ oFalse 0).map
        (fun p => p.1.lanes.map Lane.get_posns) = some [[3, 3]] := by
  decide

/-- Claim C2 (code bug): velocity bounds are violated by the code.  For a
lane holding a single car (position 3, velocity 2, length 10) the forward
gap computed from the snapshot is 0, and the braking step sets the velocity
to `0 - 1 = -1` with no clamp: the car ends the tick with velocity −1,
having moved backward to cell 2. -/
theorem c2_negative_velocity_bug :
    Car.update ⟨3, 2, 0⟩ 3 10 oFalse 0 = (⟨2, -1, 0⟩, 0) ∧
    (Lane.update ⟨10, 1, [⟨3, 2, 0⟩]⟩ oFalse 0).1 = ⟨10, 1, [⟨2, -1, 0⟩]⟩ ∧
    (-1 : Int) < 0 := by
  decide

/-- Claim C7: a car with positive `crash_timer` is immobilized by both
update variants: velocity set to 0, `crash_timer` decremented by exactly 1,
position unchanged, no other rule applied (the full result state is the
input state with only those two fields touched, and the draw counter is not
advanced, so no randomization draw happened); `update_wLC` returns `false`
and leaves both adjacent lanes untouched. -/
theorem c7_crashed_car (c : Car) (pa L : Int) (adjL adjR : Option Lane)
    (o : Oracle) (k : Nat) (h : 0 < c.crash_timer) :
    c.update pa L o k = ({ c with vel := 0, crash_timer := c.crash_timer - 1 }, k) ∧
    c.update_wLC pa L adjL adjR o k =
      some (({ c with vel := 0, crash_timer := c.crash_timer - 1 }, false, adjL, adjR, k)) ∧
    ({ c with vel := 0, crash_timer := c.crash_timer - 1 } : Car).posn = c.posn := by
  have hne : c.crash_timer ≠ 0 := Nat.pos_iff_ne_zero.mp h
  refine ⟨?_, ?_, rfl⟩ <;> simp [Car.update, Car.update_wLC, hne]

/-- Witness for `c7_crashed_car` at a concrete crashed car. -/
theorem c7_crashed_car_witness :
    Car.update ⟨3, 4, 2⟩ 7 10 oFalse 0 = (⟨3, 0, 1⟩, 0) ∧
    Car.update_wLC ⟨3, 4, 2⟩ 7 10 none none oFalse 0 =
      some ((⟨3, 0, 1⟩, false, none, none, 0)) ∧
    (⟨3, 0, 1⟩ : Car).posn = (⟨3, 4, 2⟩ : Car).posn :=
  c7_crashed_car ⟨3, 4, 2⟩ 7 10 none none oFalse 0 (by decide)

/-- Claim C9: neighbour search on a lane of length 20 with cars at
positions 2, 9, 15: the subject at position 17 gets the car at 15 as
nearest-behind (circular distance 2) and the car at 2 as nearest-ahead
(circular distance 5, wrapped). -/
theorem c9_neighbor_search :
    ahead_behind ⟨17, 1, 0⟩ ⟨20, 3, [⟨2, 1, 0⟩, ⟨9, 1, 0⟩, ⟨15, 1, 0⟩]⟩ 20 =
      (some ⟨15, 1, 0⟩, some ⟨2, 1, 0⟩) ∧
    (17 - 15 : Int) % 20 = 2 ∧ (2 - 17 : Int) % 20 = 5 := by
  decide

/-- Claim C10: for a present but empty adjacent lane, the neighbour search
returns no behind and no ahead car, and a non-crashed car's `update_wLC`
then dereferences the absent behind neighbour without a guard: the whole
tick fails (`none`, the embedded `AttributeError`) instead of treating the
empty side as disqualified.  The last conjunct runs a full
`Road.update_wLC` on a two-lane road whose second lane is empty: the tick
fails. -/
theorem c10_empty_adjacent_failure :
    (∀ (c : Car) (len : Int) (n : Nat) (L : Int),
        ahead_behind c ⟨len, n, []⟩ L = (none, none)) ∧
    (∀ (c : Car) (pa L len : Int) (n : Nat) (aR : Option Lane) (o : Oracle) (k : Nat),
        c.crash_timer = 0 → Car.update_wLC c pa L (some ⟨len, n, []⟩) aR o k = none) ∧
    Road.update_wLC ⟨2, 10, [⟨10, 1, [⟨3, 1, 0⟩]⟩, ⟨10, 0, []⟩]⟩ oFalse 0 = none := by
  refine ⟨?_, ?_, by decide⟩
  · intro c len n L
    simp [ahead_behind, behindScan, aheadScan]
  · intro c pa L len n aR o k h
    simp [Car.update_wLC, h, sideSpace, ahead_behind, behindScan, aheadScan]

/-- Witness for `c10_empty_adjacent_failure` at a concrete non-crashed car. -/
theorem c10_empty_adjacent_failure_witness :
    Car.update_wLC ⟨3, 1, 0⟩ 3 10 (some ⟨10, 0, []⟩) none oFalse 0 = none :=
  c10_empty_adjacent_failure.2.1 ⟨3, 1, 0⟩ 3 10 10 0 none oFalse 0 rfl

/-- Claim C8: the crash-injection asymmetry.  `crash_car` on an empty lane
fails with the empty-population condition (`randint(0, -1)` raises, embedded
as `none`) rather than doing nothing; the guarded step of
`tick_with_lane_changes` skips an empty target lane and succeeds leaving the
lanes untouched, while the unguarded step of `tick` calls `crash_car`
unconditionally and propagates the failure; concretely, on a one-lane road
whose lane is empty and an oracle whose crash event fires, `Road.update`
fails while `Road.update_wLC` completes with the road unchanged. -/
theorem c8_crash_guard_asymmetry :
    (∀ (l : Lane) (r : Nat), l.num_cars = 0 → l.crash_car r = none) ∧
    (∀ (nL : Nat) (o : Oracle) (lanes : List Lane) (k : Nat),
        o.crash k = true →
        (lanes.getD (o.laneIdx (k + 1) % nL) Lane.dummy).num_cars = 0 →
        roadCrashStep true nL o lanes k = some ((lanes, k + 2)) ∧
          roadCrashStep false nL o lanes k = none) ∧
    Road.update ⟨1, 10, [⟨10, 0, []⟩]⟩ oCrash 0 = none ∧
    Road.update_wLC ⟨1, 10, [⟨10, 0, []⟩]⟩ oCrash 0 =
      some ((⟨1, 10, [⟨10, 0, []⟩]⟩, 2)) := by
  refine ⟨?_, ?_, by decide, by decide⟩
  · intro l r h
    simp [Lane.crash_car, h]
  · intro nL o lanes k h1 h2
    rw [List.getD_eq_getElem?_getD] at h2
    constructor <;> simp [roadCrashStep, h1, h2, Lane.crash_car]

/-- Witness for `c8_crash_guard_asymmetry` at a concrete empty lane and a
concrete firing crash step. -/
theorem c8_crash_guard_asymmetry_witness :
    Lane.crash_car ⟨10, 0, []⟩ 5 = none ∧
    (roadCrashStep true 1 oCrash [⟨10, 0, []⟩] 0 = some (([⟨10, 0, []⟩], 2)) ∧
      roadCrashStep false 1 oCrash [⟨10, 0, []⟩] 0 = none) :=
  ⟨c8_crash_guard_asymmetry.1 ⟨10, 0, []⟩ 5 rfl,
   c8_crash_guard_asymmetry.2.1 1 oCrash [⟨10, 0, []⟩] 0 rfl rfl⟩

/-- Claim C5 (counterexample): the side-candidate test of `update_wLC` is
the plain integer comparison `(behind.posn + behind.vel + 1) % road_len <
self.posn`, which is not the circular would-not-reach criterion the claim
states.  With road length 10, subject at position 8 and a behind car at
position 5 with velocity 5, the behind car's one-tick max advance covers
circular distance 6 ≥ 3, reaching and passing position 8, yet the code
qualifies the side (`(5+5+1) % 10 = 1 < 8`); the final conjunct runs the
full `update_wLC`: the subject changes into that unsafe lane. -/
theorem c5_wrap_counterexample :
    candidateCheck 8 5 5 10 = true ∧
    candidateSpec 8 5 5 10 = false ∧
    (8 - 5 : Int) % 10 ≤ 5 + 1 ∧
    Car.update_wLC ⟨8, 0, 0⟩ 8 10 (some ⟨10, 1, [⟨5, 5, 0⟩]⟩) none oFalse 0 =
      some ((⟨8, 0, 0⟩, true, some ⟨10, 2, [⟨5, 5, 0⟩, ⟨8, 0, 0⟩]⟩, none, 0)) := by
  decide

/-- Claim C5 (amended): when no wraparound is involved — the behind car sits
at a smaller cell than the subject and its advance `b + v + 1` stays below
the road length — the code's comparison agrees with the circular
would-not-reach criterion of the spec. -/
theorem c5_no_wrap_agreement (p b v L : Int) (hv : 0 ≤ v) (hb : 0 ≤ b)
    (hadv : b + v + 1 < L) (hbp : b < p) (hpL : p < L) :
    candidateCheck p b v L = candidateSpec p b v L := by
  have h1 : (b + v + 1) % L = b + v + 1 := Int.emod_eq_of_lt (by omega) hadv
  have h2 : (p - b) % L = p - b := Int.emod_eq_of_lt (by omega) (by omega)
  simp only [candidateCheck, candidateSpec, h1, h2]
  exact decide_eq_decide.mpr (by omega)

/-- Witness for `c5_no_wrap_agreement` at a concrete wrap-free input. -/
theorem c5_no_wrap_agreement_witness :
    candidateCheck 5 2 0 10 = candidateSpec 5 2 0 10 :=
  c5_no_wrap_agreement 5 2 0 10 (by decide) (by decide) (by decide) (by decide) (by decide)

/-- Claim C4: the selection chain of `update_wLC` picks the lane with the
strictly largest candidate space, with ties favouring the current lane
first, then the right lane, then the left lane: it stays exactly when
`mSpace` is at least both others (so a three-way tie stays), otherwise goes
right exactly when `rSpace ≥ lSpace`, otherwise left.  The last conjunct
runs a full `update_wLC` in a configuration where
`mSpace = rSpace = lSpace = 3`: the car stays in its lane (the no-lane-change
rule is applied: it accelerates to 2 and advances to cell 7) and `false` is
returned. -/
theorem c4_tie_break :
    (∀ mSpace rSpace lSpace : Int,
        spaceSelect mSpace rSpace lSpace =
          if mSpace ≥ rSpace ∧ mSpace ≥ lSpace then LCChoice.stay
          else if rSpace ≥ lSpace then LCChoice.right
          else LCChoice.left) ∧
    Car.update_wLC ⟨5, 1, 0⟩ 8 10 (some ⟨10, 2, [⟨2, 0, 0⟩, ⟨8, 0, 0⟩]⟩)
        (some ⟨10, 2, [⟨2, 0, 0⟩, ⟨8, 0, 0⟩]⟩) oFalse 0 =
      some ((⟨7, 2, 0⟩, false, some ⟨10, 2, [⟨2, 0, 0⟩, ⟨8, 0, 0⟩]⟩,
        some ⟨10, 2, [⟨2, 0, 0⟩, ⟨8, 0, 0⟩]⟩, 1)) := by
  refine ⟨?_, by decide⟩
  intro m r l
  unfold spaceSelect
  rcases max_cases r l with ⟨h1, h2⟩ | ⟨h1, h2⟩ <;> rw [h1]
  · rcases max_cases r m with ⟨h3, h4⟩ | ⟨h3, h4⟩ <;> rw [h3] <;> split_ifs <;>
      first | rfl | (exfalso; omega)
  · rcases max_cases l m with ⟨h3, h4⟩ | ⟨h3, h4⟩ <;> rw [h3] <;> split_ifs <;>
      first | rfl | (exfalso; omega)

/-- Claim C6 (counterexample): a car that changes to the RIGHT lane is
updated again when its destination lane runs later within the same
`Road.update_wLC` tick.  On a two-lane road of length 10 with lane 0 =
cars at 0 and 5 (both velocity 0) and lane 1 = one car at 2 (velocity 0),
with no random slowdowns, the car at (lane 0, position 5, velocity 0) moves
to lane 1 (lane 0 shrinks from 2 cars to 1, lane 1 grows from 1 to 2), and
when lane 1 subsequently updates it is processed again: it ends the very
same tick at position 6 with velocity 1 — its position and velocity did not
survive the tick unchanged, refuting the claim for right moves. -/
theorem c6_right_move_reupdated :
    Road.update_wLC ⟨2, 10, [⟨10, 2, [⟨0, 0, 0⟩, ⟨5, 0, 0⟩]⟩, ⟨10, 1, [⟨2, 0, 0⟩]⟩]⟩
        oFalse 0 =
      some ((⟨2, 10, [⟨10, 1, [⟨1, 1, 0⟩]⟩,
        ⟨10, 2, [⟨3, 1, 0⟩, ⟨6, 1, 0⟩]⟩]⟩, 5)) := by
  decide

/-- Claim C6 (amended): the transfer itself applies no rule to the moving
car — whenever `update_wLC` reports a lane change, the returned car is
exactly the input car (same position, velocity and crash timer), and the
populations of the two adjacent lanes afterwards are the populations before
plus that unchanged car inserted into exactly one of them.  (What the
counterexample refutes is only the further claim that no rule touches the
car again later in the same road tick: a right-mover is re-processed by its
destination lane.) -/
theorem c6_transfer_frame (c : Car) (pa L : Int) (adjL adjR : Option Lane)
    (o : Oracle) (k : Nat) (c1 : Car) (aL aR : Option Lane) (k1 : Nat)
    (h : Car.update_wLC c pa L adjL adjR o k = some ((c1, true, aL, aR, k1))) :
    c1 = c ∧ laneBag aL + laneBag aR = c ::ₘ (laneBag adjL + laneBag adjR) := by
  unfold Car.update_wLC at h
  repeat' split at h
  all_goals simp only [Option.some.injEq, Prod.mk.injEq, reduceCtorEq] at h
  case isTrue => exact h.2.1.elim
  all_goals revert h
  all_goals split
  all_goals intro h
  all_goals
    first
      | (simp only [Option.some.injEq, Prod.mk.injEq] at h
         obtain ⟨hc, -, hL, hR, -⟩ := h
         subst hc
         subst hL
         subst hR
         refine ⟨rfl, ?_⟩
         simp [laneBag, add_car_bag, Multiset.cons_add, Multiset.add_cons])
      | simp at h

/-- Witness for `c6_transfer_frame` at a concrete right move: the sole car
of lane 0 (position 5, velocity 0) transfers into the right lane unchanged. -/
theorem c6_transfer_frame_witness :
    (⟨5, 0, 0⟩ : Car) = ⟨5, 0, 0⟩ ∧
    laneBag none + laneBag (some ⟨10, 2, [⟨2, 0, 0⟩, ⟨5, 0, 0⟩]⟩) =
      (⟨5, 0, 0⟩ : Car) ::ₘ (laneBag none + laneBag (some ⟨10, 1, [⟨2, 0, 0⟩]⟩)) :=
  c6_transfer_frame ⟨5, 0, 0⟩ 5 10 none (some ⟨10, 1, [⟨2, 0, 0⟩]⟩) oFalse 0
    ⟨5, 0, 0⟩ none (some ⟨10, 2, [⟨2, 0, 0⟩, ⟨5, 0, 0⟩]⟩) 0 (by decide)

/-! ## Car-count conservation for the with-lane-change tick (claim C3) -/

/-- One `Car.update_wLC` call conserves the combined count of the car itself
and the two adjacent lanes (the car is counted unless it moved away), and
an adjacent lane is present on output exactly when it was on input. -/
theorem carWLC_conserves (c : Car) (pa L : Int) (adjL adjR : Option Lane)
    (o : Oracle) (k : Nat) (c1 : Car) (mv : Bool) (aL aR : Option Lane) (k1 : Nat)
    (h : Car.update_wLC c pa L adjL adjR o k = some ((c1, mv, aL, aR, k1))) :
    (if mv then 0 else 1) + optLen aL + optLen aR = 1 + optLen adjL + optLen adjR
      ∧ (aL = none ↔ adjL = none) ∧ (aR = none ↔ adjR = none) := by
  unfold Car.update_wLC at h
  repeat' split at h
  all_goals simp only [Option.some.injEq, Prod.mk.injEq, reduceCtorEq] at h
  case isTrue =>
    obtain ⟨-, hmv, hL, hR, -⟩ := h
    subst hmv
    subst hL
    subst hR
    simp
  all_goals revert h
  all_goals split
  all_goals intro h
  all_goals
    first
      | (simp only [Option.some.injEq, Prod.mk.injEq] at h
         obtain ⟨-, hmv, hL, hR, -⟩ := h
         subst hmv
         subst hL
         subst hR
         refine ⟨?_, ?_, ?_⟩ <;> simp [optLen, add_car_length] <;> omega)
      | simp at h

/-- The per-car loop of `Lane.update_wLC` conserves the combined count of
the kept cars and the two adjacent lanes, and keeps adjacent-lane
presence. -/
theorem laneCarsWLC_conserves (curr : List Int) (n : Nat) (len : Int) (o : Oracle)
    (cs : List Car) :
    ∀ (i : Nat) (aL aR : Option Lane) (k : Nat)
      (kept : List Car) (m : Nat) (aL2 aR2 : Option Lane) (k2 : Nat),
      laneCarsWLC curr n len o cs i aL aR k = some ((kept, m, aL2, aR2, k2)) →
      kept.length + optLen aL2 + optLen aR2 = cs.length + optLen aL + optLen aR
        ∧ (aL2 = none ↔ aL = none) ∧ (aR2 = none ↔ aR = none) := by
  induction cs with
  | nil =>
      intro i aL aR k kept m aL2 aR2 k2 h
      simp only [laneCarsWLC, Option.some.injEq, Prod.mk.injEq] at h
      obtain ⟨h1, -, h3, h4, -⟩ := h
      subst h1
      subst h3
      subst h4
      simp
  | cons c cs ih =>
      intro i aL aR k kept m aL2 aR2 k2 h
      rw [laneCarsWLC] at h
      split at h
      · exact absurd h (by simp)
      · split at h
        · exact absurd h (by simp)
        · rename_i x1 c1 mv aL1 aR1 k1 e1 x2 keptT mT aL2T aR2T k2T e2
          clear x1 x2
          simp only [Option.some.injEq, Prod.mk.injEq] at h
          obtain ⟨hkept, -, hL2, hR2, -⟩ := h
          subst hkept
          subst hL2
          subst hR2
          have H1 := carWLC_conserves c _ len aL aR o k c1 mv aL1 aR1 k1 e1
          have H2 := ih (i + 1) aL1 aR1 k1 keptT mT aL2T aR2T k2T e2
          refine ⟨?_, H2.2.1.trans H1.2.1, H2.2.2.trans H1.2.2⟩
          cases mv <;> simp at H1 ⊢ <;> omega

/-- `Lane.update_wLC` conserves the combined count of its own lane and the
two adjacent lanes, and keeps adjacent-lane presence. -/
theorem laneWLC_conserves (l : Lane) (adjL adjR : Option Lane) (o : Oracle) (k : Nat)
    (l1 : Lane) (aL aR : Option Lane) (k1 : Nat)
    (h : Lane.update_wLC l adjL adjR o k = some ((l1, aL, aR, k1))) :
    l1.cars.length + optLen aL + optLen aR
        = l.cars.length + optLen adjL + optLen adjR
      ∧ (aL = none ↔ adjL = none) ∧ (aR = none ↔ adjR = none) := by
  unfold Lane.update_wLC at h
  cases e : laneCarsWLC l.get_posns l.num_cars l.length o l.cars 0 adjL adjR k with
  | none => rw [e] at h; exact absurd h (by simp)
  | some q =>
      obtain ⟨kept, m, aL2, aR2, k2⟩ := q
      rw [e] at h
      simp only [Option.some.injEq, Prod.mk.injEq] at h
      obtain ⟨h1, h2, h3, -⟩ := h
      subst h2
      subst h3
      have H := laneCarsWLC_conserves l.get_posns l.num_cars l.length o l.cars
        0 adjL adjR k kept m aL2 aR2 k2 e
      have hc : l1.cars = kept := by rw [← h1]
      rw [hc]
      exact H

/-- Reading a list at an index other than the one just written gives the old
value. -/
theorem getD_set_ne (l : List Lane) :
    ∀ (i j : Nat) (x d : Lane), i ≠ j → (l.set i x).getD j d = l.getD j d := by
  induction l with
  | nil => intro i j x d _; simp
  | cons a t ih =>
      intro i j x d h
      cases i with
      | zero =>
          cases j with
          | zero => exact absurd rfl h
          | succ j => simp
      | succ i =>
          cases j with
          | zero => simp
          | succ j => simpa using ih i j x d (fun e => h (by omega))

/-- Writing a lane into a list, in additive form: new total plus the
overwritten lane's count equals old total plus the new lane's count. -/
theorem totalLanes_set_add (x : Lane) (l : List Lane) :
    ∀ i : Nat, i < l.length →
      totalLanes (l.set i x) + (l.getD i Lane.dummy).cars.length
        = totalLanes l + x.cars.length := by
  induction l with
  | nil => intro i h; simp at h
  | cons a t ih =>
      intro i h
      cases i with
      | zero => simp [totalLanes]; omega
      | succ i =>
          have := ih i (by simpa using h)
          simp only [List.set_cons_succ, List.getD_cons_succ, totalLanes,
            List.map_cons, List.sum_cons] at this ⊢
          omega

/-- Writing a lane with the same car count leaves the total unchanged. -/
theorem totalLanes_set_same (l : List Lane) :
    ∀ (i : Nat) (x : Lane),
      x.cars.length = (l.getD i Lane.dummy).cars.length →
      totalLanes (l.set i x) = totalLanes l := by
  induction l with
  | nil => intro i x _; simp
  | cons a t ih =>
      intro i x h
      cases i with
      | zero =>
          simp only [List.getD_cons_zero] at h
          simp [totalLanes, h]
      | succ i =>
          simp only [List.getD_cons_succ] at h
          simp only [List.set_cons_succ, totalLanes, List.map_cons, List.sum_cons]
          have := ih i x h
          simp only [totalLanes] at this
          omega

/-- `crash_car` only flips a `crash_timer`, preserving the car count. -/
theorem crash_car_length (l : Lane) (r : Nat) (l1 : Lane)
    (h : l.crash_car r = some l1) : l1.cars.length = l.cars.length := by
  unfold Lane.crash_car at h
  split at h
  · exact absurd h (by simp)
  · simp only [Option.some.injEq] at h
    subst h
    simp

/-- The crash-injection step preserves the total car count and the number
of lanes. -/
theorem crashStep_conserves (g : Bool) (nL : Nat) (o : Oracle) (lanes : List Lane)
    (k : Nat) (lanes2 : List Lane) (k2 : Nat)
    (h : roadCrashStep g nL o lanes k = some ((lanes2, k2))) :
    totalLanes lanes2 = totalLanes lanes ∧ lanes2.length = lanes.length := by
  unfold roadCrashStep at h
  split at h
  · dsimp only at h
    split at h
    · simp only [Option.some.injEq, Prod.mk.injEq] at h
      obtain ⟨h1, -⟩ := h
      subst h1
      exact ⟨rfl, rfl⟩
    · cases e : (lanes.getD (o.laneIdx (k + 1) % nL) Lane.dummy).crash_car
          (o.carIdx (k + 2)) with
      | none => rw [e] at h; exact absurd h (by simp)
      | some l1 =>
          rw [e] at h
          simp only [Option.some.injEq, Prod.mk.injEq] at h
          obtain ⟨h1, -⟩ := h
          subst h1
          refine ⟨totalLanes_set_same lanes _ l1 ?_, by simp⟩
          exact crash_car_length _ _ _ e
  · simp only [Option.some.injEq, Prod.mk.injEq] at h
    obtain ⟨h1, -⟩ := h
    subst h1
    exact ⟨rfl, rfl⟩

/-- `writeBack` never changes the number of lanes. -/
theorem length_writeBack (lanes : List Lane) (j : Nat) (x : Option Lane) :
    (writeBack lanes j x).length = lanes.length := by
  cases x <;> simp [writeBack]

/-- Storing one lane's update and its two written-back neighbours preserves
the total car count, given the per-lane conservation equation and the
presence facts from `laneWLC_conserves`. -/
theorem totalLanes_update_writeback (lanes : List Lane) (i nL : Nat) (l1 : Lane)
    (aL aR : Option Lane) (hlen : lanes.length = nL) (hi : i < nL)
    (hL : aL = none ↔ (if i ≠ 0 then some (lanes.getD (i - 1) Lane.dummy) else none) = none)
    (hR : aR = none ↔ (if i ≠ nL - 1 then some (lanes.getD (i + 1) Lane.dummy) else none) = none)
    (hsum : l1.cars.length + optLen aL + optLen aR
      = (lanes.getD i Lane.dummy).cars.length
        + optLen (if i ≠ 0 then some (lanes.getD (i - 1) Lane.dummy) else none)
        + optLen (if i ≠ nL - 1 then some (lanes.getD (i + 1) Lane.dummy) else none)) :
    totalLanes (writeBack (writeBack (lanes.set i l1) (i - 1) aL) (i + 1) aR)
      = totalLanes lanes := by
  have hiL : i < lanes.length := by omega
  have hset := totalLanes_set_add l1 lanes i hiL
  by_cases h0 : i = 0
  · have haL : aL = none := hL.mpr (by simp [h0])
    subst haL
    by_cases hN : i = nL - 1
    · have haR : aR = none := hR.mpr (by simp [hN])
      subst haR
      simp only [writeBack]
      simp only [if_neg (by simp [h0] : ¬ i ≠ 0), if_neg (by simp [hN] : ¬ i ≠ nL - 1),
        optLen] at hsum
      exact totalLanes_set_same lanes i l1 (by omega)
    · obtain ⟨b, hb⟩ : ∃ b, aR = some b := by
        cases aR with
        | none => exact absurd (hR.mp rfl) (by simp [hN])
        | some b => exact ⟨b, rfl⟩
      subst hb
      simp only [writeBack]
      have hiR : i + 1 < lanes.length := by omega
      have hset2 := totalLanes_set_add b (lanes.set i l1) (i + 1)
        (by simpa using hiR)
      rw [getD_set_ne lanes i (i + 1) l1 Lane.dummy (by omega)] at hset2
      simp only [if_neg (by simp [h0] : ¬ i ≠ 0), if_pos hN, optLen] at hsum
      omega
  · obtain ⟨a, ha⟩ : ∃ a, aL = some a := by
      cases aL with
      | none => exact absurd (hL.mp rfl) (by simp [h0])
      | some a => exact ⟨a, rfl⟩
    subst ha
    have hiLm : i - 1 < lanes.length := by omega
    have hsetL := totalLanes_set_add a (lanes.set i l1) (i - 1)
      (by simpa using hiLm)
    rw [getD_set_ne lanes i (i - 1) l1 Lane.dummy (by omega)] at hsetL
    by_cases hN : i = nL - 1
    · have haR : aR = none := hR.mpr (by simp [hN])
      subst haR
      simp only [writeBack]
      simp only [if_pos h0, if_neg (by simp [hN] : ¬ i ≠ nL - 1), optLen] at hsum
      omega
    · obtain ⟨b, hb⟩ : ∃ b, aR = some b := by
        cases aR with
        | none => exact absurd (hR.mp rfl) (by simp [hN])
        | some b => exact ⟨b, rfl⟩
      subst hb
      simp only [writeBack]
      have hiR : i + 1 < lanes.length := by omega
      have hsetR := totalLanes_set_add b ((lanes.set i l1).set (i - 1) a) (i + 1)
        (by simpa using hiR)
      rw [getD_set_ne (lanes.set i l1) (i - 1) (i + 1) a Lane.dummy (by omega),
        getD_set_ne lanes i (i + 1) l1 Lane.dummy (by omega)] at hsetR
      simp only [if_pos h0, if_pos hN, optLen] at hsum
      omega

/-- The lane loop of `Road.update_wLC` preserves the total car count and
the number of lanes. -/
theorem roadWLCgo_conserves (nL : Nat) (o : Oracle) (is : List Nat) :
    ∀ (lanes : List Lane) (k : Nat) (lanes2 : List Lane) (k2 : Nat),
      lanes.length = nL → (∀ j ∈ is, j < nL) →
      roadLanesTickWLC nL o is lanes k = some ((lanes2, k2)) →
      totalLanes lanes2 = totalLanes lanes ∧ lanes2.length = nL := by
  induction is with
  | nil =>
      intro lanes k lanes2 k2 hlen _ h
      simp only [roadLanesTickWLC, Option.some.injEq, Prod.mk.injEq] at h
      obtain ⟨h1, -⟩ := h
      subst h1
      exact ⟨rfl, hlen⟩
  | cons i is ih =>
      intro lanes k lanes2 k2 hlen hb h
      rw [roadLanesTickWLC] at h
      split at h
      · exact absurd h (by simp)
      · rename_i x1 l1 aL aR k1 e1
        clear x1
        dsimp only at h
        split at h
        · exact absurd h (by simp)
        · rename_i x2 lanesC kC e2
          clear x2
          have hi : i < nL := hb i (by simp)
          have HL := laneWLC_conserves _ _ _ o k l1 aL aR k1 e1
          have hT := totalLanes_update_writeback lanes i nL l1 aL aR hlen hi
            HL.2.1 HL.2.2 HL.1
          have hlw : (writeBack (writeBack (lanes.set i l1) (i - 1) aL)
              (i + 1) aR).length = nL := by
            simp [length_writeBack, hlen]
          have hcs := crashStep_conserves true nL o _ k1 lanesC kC e2
          have hrec := ih lanesC kC lanes2 k2 (by omega)
            (fun j hj => hb j (by simp [hj])) h
          refine ⟨?_, hrec.2⟩
          rw [hrec.1, hcs.1, hT]

/-- One full `Road.update_wLC` tick preserves the total car count; it also
preserves the lane-count bookkeeping needed to chain ticks. -/
theorem roadWLC_conserves (r : Road) (o : Oracle) (k : Nat) (r2 : Road) (k2 : Nat)
    (hnum : r.lanes.length = r.num_lanes)
    (h : r.update_wLC o k = some ((r2, k2))) :
    totalCars r2 = totalCars r
      ∧ r2.lanes.length = r2.num_lanes ∧ r2.num_lanes = r.num_lanes := by
  unfold Road.update_wLC at h
  cases e : roadLanesTickWLC r.num_lanes o (List.range r.lanes.length) r.lanes k with
  | none => rw [e] at h; exact absurd h (by simp)
  | some q =>
      obtain ⟨lanes2, k2T⟩ := q
      rw [e] at h
      simp only [Option.some.injEq, Prod.mk.injEq] at h
      obtain ⟨h1, -⟩ := h
      have H := roadWLCgo_conserves r.num_lanes o (List.range r.lanes.length)
        r.lanes k lanes2 k2T hnum
        (fun j hj => by rw [← hnum]; simpa using hj) e
      subst h1
      exact ⟨H.1, H.2, rfl⟩

/-- Claim C3: the total number of cars summed over all lanes of a road
with consistent lane bookkeeping (`lanes.length = num_lanes`, true of every
constructed road) is invariant across any number of completed
`Road.update_wLC` ticks: departing cars are inserted into exactly one
adjacent lane and removed exactly once from their source lane, so none is
duplicated or lost. -/
theorem c3_car_count_invariant (n : Nat) :
    ∀ (r : Road) (o : Oracle) (k : Nat) (r2 : Road) (k2 : Nat),
      r.lanes.length = r.num_lanes →
      Road.update_wLC_iter n r o k = some ((r2, k2)) →
      totalCars r2 = totalCars r := by
  induction n with
  | zero =>
      intro r o k r2 k2 _ h
      simp only [Road.update_wLC_iter, Option.some.injEq, Prod.mk.injEq] at h
      obtain ⟨h1, -⟩ := h
      subst h1
      rfl
  | succ n ih =>
      intro r o k r2 k2 hnum h
      rw [Road.update_wLC_iter] at h
      cases e : r.update_wLC o k with
      | none => rw [e] at h; exact absurd h (by simp)
      | some q =>
          obtain ⟨r1, k1⟩ := q
          rw [e] at h
          have H := roadWLC_conserves r o k r1 k1 hnum e
          have := ih r1 o k1 r2 k2 (by rw [H.2.1]) h
          rw [this, H.1]

/-- Witness for `c3_car_count_invariant`: one tick of a one-lane road with a
single car (the car ends at cell 2 with velocity −1; the count stays 1). -/
theorem c3_car_count_invariant_witness :
    totalCars ⟨1, 10, [⟨10, 1, [⟨2, -1, 0⟩]⟩]⟩ =
      totalCars ⟨1, 10, [⟨10, 1, [⟨3, 2, 0⟩]⟩]⟩ :=
  c3_car_count_invariant 1 ⟨1, 10, [⟨10, 1, [⟨3, 2, 0⟩]⟩]⟩ oFalse 0
    ⟨1, 10, [⟨10, 1, [⟨2, -1, 0⟩]⟩]⟩ 1 rfl (by decide)

end CarSim
